import Mathlib

/-!
Verification development for the SOllisting repository
(`main.py`, `utils/solana_rpc.py`, `utils/telegram_bot.py`).

The Python sources are shallowly embedded below: pure computations become
Lean functions, network effects become explicit outcome parameters, the
in-memory dedup set becomes a `Finset String`, and exceptions become
`Except` results.  Chat/HTTP side effects are recorded as event lists so
that properties about "which calls happened" can be stated.
-/

/-! ## A small regex engine (Brzozowski derivatives)

`main.py` validates URLs with `re.match` against `URL_REGEX` (compiled with
`re.IGNORECASE`).  We embed exactly that regular expression as a syntax tree
and decide membership with derivatives.  Counted repetitions (`{m,n}`) occur
in the source only over single character classes, so they are a dedicated
constructor `reps` over a character predicate (`hi = none` means unbounded).
-/

inductive RE where
  | emp : RE
  | eps : RE
  | chc (p : Char → Bool) : RE
  | cat (a b : RE) : RE
  | alt (a b : RE) : RE
  | star (a : RE) : RE
  | reps (p : Char → Bool) (lo : Nat) (hi : Option Nat) : RE

def RE.nullable : RE → Bool
  | .emp => false
  | .eps => true
  | .chc _ => false
  | .cat a b => a.nullable && b.nullable
  | .alt a b => a.nullable || b.nullable
  | .star _ => true
  | .reps _ lo _ => lo == 0

def RE.isEmp : RE → Bool
  | .emp => true
  | _ => false

/-- Alternation with eager elimination of the empty language. -/
def RE.mkAlt (a b : RE) : RE :=
  if a.isEmp then b else if b.isEmp then a else .alt a b

/-- Concatenation with eager elimination of `emp` and `eps`. -/
def RE.mkCat (a b : RE) : RE :=
  if a.isEmp || b.isEmp then .emp
  else
    match a, b with
    | .eps, b => b
    | a, .eps => a
    | a, b => .cat a b

def RE.deriv : RE → Char → RE
  | .emp, _ => .emp
  | .eps, _ => .emp
  | .chc p, c => if p c then .eps else .emp
  | .cat a b, c =>
      if a.nullable then RE.mkAlt (RE.mkCat (a.deriv c) b) (b.deriv c)
      else RE.mkCat (a.deriv c) b
  | .alt a b, c => RE.mkAlt (a.deriv c) (b.deriv c)
  | .star a, c => RE.mkCat (a.deriv c) (.star a)
  | .reps p lo hi, c =>
      match hi with
      | some 0 => .emp
      | some (h + 1) => if p c then .reps p (lo - 1) (some h) else .emp
      | none => if p c then .reps p (lo - 1) none else .emp

def RE.matchL : RE → List Char → Bool
  | r, [] => r.nullable
  | r, c :: cs => (r.deriv c).matchL cs

def RE.opt (a : RE) : RE := .alt .eps a

def RE.plus (a : RE) : RE := .cat a (.star a)

/-- A literal character under `re.IGNORECASE`. -/
def chCI (c : Char) : RE := .chc (fun x => x.toLower = c)

/-- A literal character (not a letter, so case is irrelevant). -/
def chL (c : Char) : RE := .chc (fun x => x = c)

/-- A literal string under `re.IGNORECASE`. -/
def strCI (s : String) : RE := s.data.foldr (fun c r => RE.cat (chCI c) r) .eps

/-! Character classes of the source regex, under `IGNORECASE` (ASCII). -/

def alnumB (c : Char) : Bool := c.isAlpha || c.isDigit

def alnumDashB (c : Char) : Bool := alnumB c || c = '-'

def hexDigB (c : Char) : Bool :=
  c.isDigit || (65 ≤ c.toNat && c.toNat ≤ 70) || (97 ≤ c.toNat && c.toNat ≤ 102)

def hexColonB (c : Char) : Bool := hexDigB c || c = ':'

def nonSpaceB (c : Char) : Bool := !c.isWhitespace

/-- `(?:http|ftp)s?://` -/
def schemeRE : RE :=
  .cat (.alt (strCI "http") (strCI "ftp")) (.cat (RE.opt (chCI 's')) (strCI "://"))

/-- `[A-Z0-9](?:[A-Z0-9-]{0,61}[A-Z0-9])?\.` -/
def domainLabelRE : RE :=
  .cat (.chc alnumB)
    (.cat (RE.opt (.cat (.reps alnumDashB 0 (some 61)) (.chc alnumB))) (chL '.'))

/-- `(?:[A-Z]{2,6}\.?|[A-Z0-9-]{2,}\.?)` -/
def tldRE : RE :=
  .alt (.cat (.reps (fun c => c.isAlpha) 2 (some 6)) (RE.opt (chL '.')))
    (.cat (.reps alnumDashB 2 none) (RE.opt (chL '.')))

def domainRE : RE := .cat (RE.plus domainLabelRE) tldRE

/-- `\d{1,3}\.\d{1,3}\.\d{1,3}\.\d{1,3}` -/
def ipv4RE : RE :=
  .cat (.reps Char.isDigit 1 (some 3))
    (.cat (chL '.')
      (.cat (.reps Char.isDigit 1 (some 3))
        (.cat (chL '.')
          (.cat (.reps Char.isDigit 1 (some 3))
            (.cat (chL '.') (.reps Char.isDigit 1 (some 3)))))))

/-- `\[?[A-F0-9]*:[A-F0-9:]+\]?` -/
def ipv6RE : RE :=
  .cat (RE.opt (chL '['))
    (.cat (.reps hexDigB 0 none)
      (.cat (chL ':') (.cat (.reps hexColonB 1 none) (RE.opt (chL ']')))))

def hostRE : RE := .alt (.alt (.alt domainRE (strCI "localhost")) ipv4RE) ipv6RE

/-- `(?::\d+)?` -/
def portRE : RE := RE.opt (.cat (chL ':') (.reps Char.isDigit 1 none))

/-- `(?:/?|[/?]\S+)` -/
def tailRE : RE :=
  .alt (RE.opt (chL '/'))
    (.cat (.chc (fun c => c = '/' || c = '?')) (.reps nonSpaceB 1 none))

/-- The full `URL_REGEX` of `main.py` (anchored `^ ... $`). -/
def URL_REGEX : RE := .cat schemeRE (.cat hostRE (.cat portRE tailRE))

/-- `is_valid_url` from `main.py`: `bool(URL_REGEX.match(url))`.  The pattern
is anchored at both ends; Python's `$` also matches just before one trailing
newline, which the second disjunct reproduces. -/
def is_valid_url (url : String) : Bool :=
  URL_REGEX.matchL url.data ||
    (url.data.getLast? == some '\n' && URL_REGEX.matchL url.data.dropLast)

/-! ## String helpers mirroring Python idioms -/

/-- Python truthiness of an optional string: `None` and `""` are falsy. -/
def truthy : Option String → Option String
  | some s => if s.isEmpty then none else some s
  | none => none

def truthyOpt (o : Option String) : Bool := (truthy o).isSome

/-- Python `a or b` on optional string values. -/
def pyOr (a b : Option String) : Option String :=
  match truthy a with
  | some s => some s
  | none => b

def isPrefB : List Char → List Char → Bool
  | [], _ => true
  | _ :: _, [] => false
  | a :: as, b :: bs => a = b && isPrefB as bs

/-- Python `needle in hay` on strings (substring containment). -/
def substrB (needle : List Char) : List Char → Bool
  | [] => needle.isEmpty
  | c :: t => isPrefB needle (c :: t) || substrB needle t

/-- `s.replace("x.com", "twitter.com")`, specialised to the fixed needle the
source uses (non-overlapping, left to right, like Python). -/
def replaceXcom : List Char → List Char
  | 'x' :: '.' :: 'c' :: 'o' :: 'm' :: rest =>
      't' :: 'w' :: 'i' :: 't' :: 't' :: 'e' :: 'r' :: '.' :: 'c' :: 'o' :: 'm'
        :: replaceXcom rest
  | c :: rest => c :: replaceXcom rest
  | [] => []

/-- The reserved characters of `escape_markdown_v2` (the Python literal
`'_*[]()~`>#+-=|{}.!'`; the backtick and the two braces are written as code
points). -/
def mdEscapeChars : List Char :=
  ['_', '*', '[', ']', '(', ')', '~', Char.ofNat 96, '>', '#', '+', '-', '=',
   '|', Char.ofNat 123, Char.ofNat 125, '.', '!']

/-- `escape_markdown_v2` from `format_token_message`. -/
def escape_markdown_v2 (s : String) : String :=
  String.mk (s.data.foldr
    (fun c acc => if mdEscapeChars.contains c then '\\' :: c :: acc else c :: acc) [])

def padZeros (s : String) (k : Nat) : String :=
  String.mk (List.replicate (k - s.length) '0') ++ s

/-- Thousands grouping on a digit list given least-significant first. -/
def commaGroupAux : List Char → List Char
  | a :: b :: c :: d :: rest => a :: b :: c :: ',' :: commaGroupAux (d :: rest)
  | l => l

/-- The f-string `,.0f` rendering of an integral supply value. -/
def commaGroup (n : Int) : String :=
  let sign := if n < 0 then "-" else ""
  sign ++ String.mk (commaGroupAux (toString n.natAbs).data.reverse).reverse

/-- The f-string `.5f` rendering of a number (CPython's binary-float rounding
is approximated by exact rational rounding; no claim inspects the digits). -/
def formatFixed5 (q : ℚ) : String :=
  let n : Int := round (q * 100000)
  let sign := if n < 0 then "-" else ""
  let m := n.natAbs
  sign ++ toString (m / 100000) ++ "." ++ padZeros (toString (m % 100000)) 5

/-- Interpolating `creator_balance_sol` with format spec `.5f`: CPython
raises `TypeError` when the value is `None` (`None.__format__` rejects a
float format spec), so the result is fallible. -/
def pyFormatBalance : Option ℚ → Except Unit String
  | none => .error ()
  | some q => .ok (formatFixed5 q)

/-- Interpolating `creator_tx_count` with `str()`: `None` renders as
`"None"`, an int as its decimal text — never an error. -/
def pyStrOptInt : Option Int → String
  | none => "None"
  | some n => toString n

/-- Builds a string from explicit code points (the emoji literals of the
source file hold unusual code points; they are reproduced exactly). -/
def glyphStr (cs : List Nat) : String := String.mk (cs.map Char.ofNat)

def dev_wallet_empty_text : String :=
  glyphStr [0xf8ff, 0xfc, 0xf6, 0xa9] ++ " Dev Wallet Empty"

def wallet_history_text : String :=
  glyphStr [0xf8ff, 0xfc, 0xfc, 0xa2] ++ " Wallet Has Decent History"

/-- `meme_emojis[0]` of the source. -/
def meme_emoji_first : String := glyphStr [0xf8ff, 0xfc, 0xea, 0x2202]

/-- `utility_emojis[0]` of the source. -/
def utility_emoji_first : String := glyphStr [0x201a, 0xf6, 0xf4, 0xd4, 0x220f, 0xe8]

/-! ## Data model -/

/-- A candidate item from the feed (`token` dict in `main.py`); `none`
models a missing key, and Python truthiness checks (which also treat `""`
as missing) go through `truthyOpt`. -/
structure Token where
  mint : Option String
  name : Option String
  symbol : Option String
  creator : Option String
  total_supply : Option Int
  deriving DecidableEq, Repr

/-- One entry of the commercial API's `result` list, restricted to the keys
the parsing logic reads. -/
structure ApiMetadata where
  telegram_url : Option String
  telegram : Option String
  twitter_url : Option String
  twitter : Option String
  deriving DecidableEq, Repr

/-- The decoded JSON body of the commercial metadata API; `result = none`
models a body whose `result` key is absent or not a list. -/
structure ApiResponse where
  result : Option (List ApiMetadata)
  deriving DecidableEq, Repr

/-- The metadata dict `get_token_metadata_enriched` returns on its success
path (keys `telegram_url` and `twitter_url`). -/
structure Enrichment where
  telegram_url : Option String
  twitter_url : Option String
  deriving DecidableEq, Repr

/-! ## Metadata Enricher (`get_token_metadata_enriched`) -/

/-- Gate/network events of one enricher call, in order of occurrence. -/
inductive Ev where
  | acq
  | net
  | rel
  deriving DecidableEq, Repr

/-- Outcome of the enricher's network interaction. -/
inductive EnrichOutcome where
  | ok (resp : ApiResponse)
  | timeout
  | transportError
  | httpStatusError
  | badJson
  | unexpected
  deriving DecidableEq, Repr

/-- The response-parsing block of `get_token_metadata_enriched`: requires a
nonempty `result` list, takes its head, and probes the alternate key names
(`telegram_url`/`telegram`, `twitter_url`/`twitter`) with Python `or`. -/
def parseEnrichment (resp : ApiResponse) : Option Enrichment :=
  match resp.result with
  | some (api :: _) =>
      some { telegram_url := pyOr api.telegram_url api.telegram
           , twitter_url := pyOr api.twitter_url api.twitter }
  | _ => none

/-- `get_token_metadata_enriched`: the result together with the gate/network
event trace of the call.  The `async with metadata_semaphore` block wraps
the whole body, so `acq` comes first and `rel` last on every path; the
unconfigured-endpoint early return happens inside the block and makes no
network call; every exception of the network call or parsing is caught (the
final `except Exception` clause), yielding `none`. -/
def get_token_metadata_enriched (configured : Bool) (o : EnrichOutcome) :
    Option Enrichment × List Ev :=
  if configured = false then (none, [Ev.acq, Ev.rel])
  else
    match o with
    | .ok resp => (parseEnrichment resp, [Ev.acq, Ev.net, Ev.rel])
    | _ => (none, [Ev.acq, Ev.net, Ev.rel])

/-- Effect of one event on the semaphore's available permit count. -/
def applyEv (n : Int) : Ev → Int
  | .acq => n - 1
  | .rel => n + 1
  | .net => n

def applyTrace (n : Int) (es : List Ev) : Int := es.foldl applyEv n

/-! ## Feed Fetcher (`fetch_new_pump_fun_tokens`) -/

/-- The decoded body of the feed response. -/
inductive FeedBody where
  | jsonList (tokens : List Token)
  | notJson
  deriving DecidableEq, Repr

/-- Outcome of the feed's HTTP GET. -/
inductive FetchOutcome where
  | success (body : FeedBody)
  | httpStatusError
  | timeout
  | transportError
  deriving DecidableEq, Repr

/-- Python exceptions that can escape the embedded functions. -/
inductive PyError where
  | typeError
  | httpStatusError
  | nameError
  deriving DecidableEq, Repr

/-- `fetch_new_pump_fun_tokens`.  Timeout, transport error and an
unparsable body are caught and yield `[]`.  `httpx.HTTPStatusError` (from
`raise_for_status` on a 4xx/5xx response) is not a `httpx.RequestError`
subclass, so neither except clause catches it and it propagates. -/
def fetch_new_pump_fun_tokens : FetchOutcome → Except PyError (List Token)
  | .success (.jsonList ts) => .ok ts
  | .success .notJson => .ok []
  | .timeout => .ok []
  | .transportError => .ok []
  | .httpStatusError => .error .httpStatusError

/-! ## Chain-Info Fetcher (`utils/solana_rpc.py`) -/

/-- Outcome of one JSON-RPC POST; `ok d` carries the decoded body already
reduced to the field the code reads (`none` = shape mismatch). -/
inductive RpcOutcome (α : Type) where
  | ok (data : α)
  | timeout
  | transportError
  | badJson
  | unexpected
  deriving DecidableEq, Repr

/-- The JSON-RPC payload shape both functions post (method name and the
optional `limit` configuration parameter). -/
structure RpcRequest where
  method : String
  limit : Option Nat
  deriving DecidableEq, Repr

/-- The payload `get_sol_balance` posts. -/
def balanceRequest : RpcRequest := { method := "getBalance", limit := none }

/-- The payload `get_transaction_count` posts: `getSignaturesForAddress`
with `limit` set to `100` recent signatures. -/
def signaturesRequest : RpcRequest :=
  { method := "getSignaturesForAddress", limit := some 100 }

/-- `get_sol_balance`.  On the success shape, lamports are divided by
`1_000_000_000`; shape mismatch, timeout, transport error and unexpected
errors give `None`.  The `except json.JSONDecodeError` clause references a
name the module never imports, so a JSON decode failure escalates to a
`NameError` that propagates (`main_loop`'s `try/except` catches it). -/
def get_sol_balance (o : RpcOutcome (Option Int)) : Except PyError (Option ℚ) :=
  match o with
  | .ok (some lamports) => .ok (some ((lamports : ℚ) / 1000000000))
  | .ok none => .ok none
  | .timeout => .ok none
  | .transportError => .ok none
  | .badJson => .error .nameError
  | .unexpected => .ok none

/-- `get_transaction_count`: on the success shape the result is the length
of the returned signature list; a malformed shape returns `0` (not `None`);
failures otherwise mirror `get_sol_balance`. -/
def get_transaction_count (o : RpcOutcome (Option (List String))) :
    Except PyError (Option Int) :=
  match o with
  | .ok (some sigs) => .ok (some (sigs.length : Int))
  | .ok none => .ok (some 0)
  | .timeout => .ok none
  | .transportError => .ok none
  | .badJson => .error .nameError
  | .unexpected => .ok none

/-! ## Message Formatter (`format_token_message`) -/

/-- The components `format_token_message` interpolates into its fixed
MarkdownV2 template.  The template around them is constant text, so this
record is the content of the produced message; building it fails exactly
where the f-string interpolation fails. -/
structure FormattedMessage where
  name_emoji : String
  name_escaped : String
  symbol_escaped : String
  mint_escaped : String
  creator_escaped : String
  formatted_supply : String
  balance_text : String
  tx_count_text : String
  dev_wallet_empty_tag_escaped : String
  wallet_history_tag_escaped : String
  telegram_link_escaped : String
  twitter_link_escaped : String
  deriving DecidableEq, Repr

def meme_keywords : List String :=
  ["dog", "cat", "pepe", "elon", "moon", "coin", "inu", "shiba", "meme"]

def utility_keywords : List String :=
  ["protocol", "solution", "network", "defi", "labs"]

def anyKeyword (kws : List String) (hay : String) : Bool :=
  kws.any (fun kw => substrB kw.data hay.data)

/-- `format_token_message`.  Interpolating `creator_balance_sol` with the
`.5f` spec raises `TypeError` when the balance is `None`, so the call is
fallible; every other input formats successfully.  (`total_supply` is
modelled as integral, so the `isinstance` numeric guard always passes.) -/
def format_token_message (token_data : Token) (creator_balance_sol : Option ℚ)
    (creator_tx_count : Option Int) (telegram_link twitter_link : String) :
    Except PyError FormattedMessage :=
  let name := token_data.name.getD "N/A"
  let symbol := token_data.symbol.getD "N/A"
  let mint := token_data.mint.getD "N/A"
  let creator := token_data.creator.getD "N/A"
  let total_supply := token_data.total_supply.getD 0
  let formatted_supply := commaGroup total_supply
  let dev_wallet_empty_tag :=
    match creator_balance_sol with
    | some b => if b < 1 then dev_wallet_empty_text else ""
    | none => ""
  let wallet_history_tag :=
    match creator_tx_count with
    | some c => if 20 < c then wallet_history_text else ""
    | none => ""
  let token_name_lower := name.toLower
  let name_emoji :=
    if anyKeyword meme_keywords token_name_lower then meme_emoji_first
    else if anyKeyword utility_keywords token_name_lower then utility_emoji_first
    else ""
  match pyFormatBalance creator_balance_sol with
  | .error _ => .error .typeError
  | .ok balance_text =>
      .ok { name_emoji := name_emoji
          , name_escaped := escape_markdown_v2 name
          , symbol_escaped := escape_markdown_v2 symbol
          , mint_escaped := escape_markdown_v2 mint
          , creator_escaped := escape_markdown_v2 creator
          , formatted_supply := formatted_supply
          , balance_text := balance_text
          , tx_count_text := pyStrOptInt creator_tx_count
          , dev_wallet_empty_tag_escaped := escape_markdown_v2 dev_wallet_empty_tag
          , wallet_history_tag_escaped := escape_markdown_v2 wallet_history_tag
          , telegram_link_escaped := escape_markdown_v2 telegram_link
          , twitter_link_escaped := escape_markdown_v2 twitter_link }

/-! ## Pipeline Driver (`main_loop`) -/

/-- The environment one poll cycle interacts with, as deterministic
functions: metadata-API behaviour per mint, the chain-info values
`main_loop` ends up with per creator (its `try/except` turns every RPC
failure into `None`, so those are `Option`s here), and the publisher's
acknowledgement per mint. -/
structure Oracles where
  enrichConfigured : Bool
  enrichOutcome : String → EnrichOutcome
  balance : String → Option ℚ
  txCount : String → Option Int
  publish : String → Bool

/-- In-memory state and observable effect log of one cycle: the dedup set,
the creators whose chain info was looked up, the mints formatted, the mints
for which the publisher was called, and whether a formatting exception
escaped (killing the cycle and the process). -/
structure LoopState where
  processed : Finset String
  lookups : List String
  formats : List String
  publishes : List String
  crashed : Bool
  deriving DecidableEq

/-- Lines 304-305: `if "x.com" in twitter_link: twitter_link =
twitter_link.replace("x.com", "twitter.com")`. -/
def normalizeTwitterLink (l : String) : String :=
  if substrB "x.com".data l.data then String.mk (replaceXcom l.data) else l

/-- Link resolution over an enrichment result (lines 298-305 of `main.py`):
read `telegram_url`/`telegram` and `twitter_url`/`twitter` with the
`or "Not found"` default (the dict built by the enricher only ever has the
`_url` keys, so the alternate key lookups are `none`), then rewrite the
twitter link.  (The rewrite applies to whatever string ended up in
`twitter_link`; `"Not found"` has no `x.com` inside, so it passes through
unchanged, as in the source.) -/
def resolveLinks (e : Option Enrichment) : String × String :=
  match e with
  | none => ("Not found", "Not found")
  | some m =>
      ((pyOr (pyOr m.telegram_url none) (some "Not found")).getD "Not found",
       normalizeTwitterLink
         ((pyOr (pyOr m.twitter_url none) (some "Not found")).getD "Not found"))

/-- Link resolution for a mint: enricher call (line 296) plus `resolveLinks`. -/
def linksFor (o : Oracles) (mint : String) : String × String :=
  resolveLinks (get_token_metadata_enriched o.enrichConfigured (o.enrichOutcome mint)).1

/-- The acceptance filter of `main_loop` (line 308): both links differ from
the `"Not found"` sentinel and each passes `is_valid_url`. -/
def mainFilter (telegram_link twitter_link : String) : Bool :=
  (telegram_link != "Not found") && is_valid_url telegram_link &&
  (twitter_link != "Not found") && is_valid_url twitter_link

/-- The filter decision for a mint: enrichment, link resolution, filter. -/
def acceptsFor (o : Oracles) (mint : String) : Bool :=
  mainFilter (linksFor o mint).1 (linksFor o mint).2

/-- Processing of one newly found token (loop body, lines 287-334 of
`main.py`): enrich and resolve links; if the filter rejects, mark processed
and continue; otherwise look up creator chain info (failures are already
`none` in the oracle), format (which can raise on an absent balance), and
publish, marking processed only on publisher success. -/
def processCandidate (o : Oracles) (s : LoopState) (t : Token) : LoopState :=
  match mainFilter (linksFor o (t.mint.getD "")).1 (linksFor o (t.mint.getD "")).2 with
  | false => { s with processed := insert (t.mint.getD "") s.processed }
  | true =>
      match format_token_message t
          (if truthyOpt t.creator then o.balance (t.creator.getD "") else none)
          (if truthyOpt t.creator then o.txCount (t.creator.getD "") else none)
          (linksFor o (t.mint.getD "")).1 (linksFor o (t.mint.getD "")).2 with
      | .error _ =>
          { s with
            lookups := if truthyOpt t.creator then s.lookups ++ [t.creator.getD ""] else s.lookups,
            formats := s.formats ++ [t.mint.getD ""],
            crashed := true }
      | .ok _msg =>
          match o.publish (t.mint.getD "") with
          | true =>
              { s with
                processed := insert (t.mint.getD "") s.processed,
                lookups := if truthyOpt t.creator then s.lookups ++ [t.creator.getD ""] else s.lookups,
                formats := s.formats ++ [t.mint.getD ""],
                publishes := s.publishes ++ [t.mint.getD ""] }
          | false =>
              { s with
                lookups := if truthyOpt t.creator then s.lookups ++ [t.creator.getD ""] else s.lookups,
                formats := s.formats ++ [t.mint.getD ""],
                publishes := s.publishes ++ [t.mint.getD ""] }

/-- One iteration of the `for token in newly_found_tokens` loop: once a
formatting exception has escaped, no further iteration runs. -/
def stepCandidate (o : Oracles) (s : LoopState) (t : Token) : LoopState :=
  if s.crashed then s else processCandidate o s t

/-- Line 274: keep tokens whose `mint` and `creator` are both truthy. -/
def validFilter (t : Token) : Bool := truthyOpt t.mint && truthyOpt t.creator

/-- Lines 274-280: the valid tokens whose mint is truthy and absent from
the dedup set — the `newly_found_tokens` of a cycle. -/
def newCandidates (allTokens : List Token) (processed : Finset String) : List Token :=
  (allTokens.filter validFilter).filter
    (fun t => truthyOpt t.mint && decide (t.mint.getD "" ∉ processed))

/-- One cycle of `main_loop`'s `while True` body, over an already-fetched
token list, starting from the given dedup set. -/
def runCycle (o : Oracles) (allTokens : List Token) (processed0 : Finset String) : LoopState :=
  (newCandidates allTokens processed0).foldl (stepCandidate o)
    { processed := processed0, lookups := [], formats := [], publishes := [], crashed := false }

/-- The states the Dedup Store can be in at startup. -/
inductive StoreState where
  | absent
  | corrupt
  | wellFormed (ids : List String)
  deriving DecidableEq, Repr

/-- `load_processed_tokens`: a missing file and undecodable JSON both yield
the empty set. -/
def load_processed_tokens : StoreState → Finset String
  | .absent => ∅
  | .corrupt => ∅
  | .wellFormed ids => ids.toFinset

/-! ## Concrete fixtures used by witnesses and counterexamples -/

/-- A metadata response carrying a telegram link and an `x.com` twitter
link (the spec's worked example). -/
def sampleResp : ApiResponse :=
  { result := some [{ telegram_url := some "https://t.me/x", telegram := none,
                      twitter_url := some "https://x.com/y", twitter := none }] }

/-- The spec's worked example feed item. -/
def sampleToken : Token :=
  { mint := some "M1", name := some "MoonDog", symbol := some "MOON",
    creator := some "C1", total_supply := some 1000 }

/-- Oracles with valid links and chain info but a publisher that always
reports failure. -/
def failPubOracles : Oracles :=
  { enrichConfigured := true
  , enrichOutcome := fun _ => .ok sampleResp
  , balance := fun _ => some (1 / 2)
  , txCount := fun _ => some 5
  , publish := fun _ => false }

/-- Same environment with a publisher that always succeeds. -/
def okPubOracles : Oracles := { failPubOracles with publish := fun _ => true }

/-- Same environment but the balance RPC always fails (caught in
`main_loop`, surfacing as `None`), and a willing publisher. -/
def noBalOracles : Oracles :=
  { failPubOracles with balance := fun _ => none, publish := fun _ => true }

/-- Oracles whose enrichment call times out, so no links are found. -/
def rejOracles : Oracles := { failPubOracles with enrichOutcome := fun _ => .timeout }

/-- Valid links and chain balance, but the activity-count RPC fails. -/
def noTxOracles : Oracles :=
  { failPubOracles with txCount := fun _ => none, publish := fun _ => true }

/-- A feed item that has an identifier but no owning account. -/
def noCreatorToken : Token :=
  { mint := some "M1", name := none, symbol := none, creator := none,
    total_supply := none }

/-- The loop state at the start of a cycle over the empty dedup set. -/
def initState : LoopState :=
  { processed := ∅, lookups := [], formats := [], publishes := [], crashed := false }

/-! ## Sanity checks on concrete inputs -/

example : is_valid_url "https://t.me/x" = true := by decide
example : is_valid_url "https://twitter.com/y" = true := by decide
example : is_valid_url "http://localhost:8080/a?b=c" = true := by decide
example : is_valid_url "http://127.0.0.1/" = true := by decide
example : is_valid_url "ftp://example.com" = true := by decide
example : is_valid_url "Not found" = false := by decide
example : is_valid_url "notaurl" = false := by decide
example : is_valid_url "https://" = false := by decide
example : linksFor failPubOracles "M1" = ("https://t.me/x", "https://twitter.com/y") := by decide
example : acceptsFor failPubOracles "M1" = true := by decide
example : acceptsFor rejOracles "M1" = false := by decide
example : (runCycle failPubOracles [sampleToken] ∅).publishes = ["M1"] := by decide
example : (runCycle okPubOracles [sampleToken] ∅).publishes = ["M1"] := by decide
example : "M1" ∈ (runCycle okPubOracles [sampleToken] ∅).processed := by decide
example : "M1" ∉ (runCycle failPubOracles [sampleToken] ∅).processed := by decide
example : (runCycle noBalOracles [sampleToken] ∅).crashed = true := by decide


/-! ## Helper lemmas -/

theorem truthy_isEmpty_false {x : Option String} {s : String} (h : truthy x = some s) :
    s.isEmpty = false := by
  cases x with
  | none => simp [truthy] at h
  | some v =>
      by_cases hv : v.isEmpty
      · simp [truthy, hv] at h
      · simp [truthy, hv] at h
        subst h
        simpa using hv

theorem truthy_none_eq : truthy none = none := rfl

theorem truthy_of_truthy {x : Option String} {s : String} (h : truthy x = some s) :
    truthy (some s) = some s := by
  simp [truthy, truthy_isEmpty_false h]

theorem resolveLinks_fst (m : Enrichment) :
    (resolveLinks (some m)).1 = (truthy m.telegram_url).getD "Not found" := by
  cases h : truthy m.telegram_url with
  | none => simp [resolveLinks, pyOr, h, truthy_none_eq]
  | some tl => simp [resolveLinks, pyOr, h, truthy_of_truthy h]

theorem resolveLinks_snd (m : Enrichment) :
    (resolveLinks (some m)).2 =
      normalizeTwitterLink ((truthy m.twitter_url).getD "Not found") := by
  cases h : truthy m.twitter_url with
  | none => simp [resolveLinks, pyOr, h, truthy_none_eq]
  | some tw => simp [resolveLinks, pyOr, h, truthy_of_truthy h]

theorem valid_ne_notfound {s : String} (h : is_valid_url s = true) :
    (s != "Not found") = true := by
  rcases eq_or_ne s "Not found" with rfl | hne
  · exact absurd h (by decide)
  · simpa [bne_iff_ne] using hne

theorem stepCandidate_crashed_eq (o : Oracles) (s : LoopState) (t : Token)
    (h : s.crashed = true) : stepCandidate o s t = s := by
  unfold stepCandidate
  simp [h]

theorem foldl_crashed_eq (o : Oracles) (ts : List Token) (s : LoopState)
    (h : s.crashed = true) : ts.foldl (stepCandidate o) s = s := by
  induction ts with
  | nil => rfl
  | cons t ts ih => rw [List.foldl_cons, stepCandidate_crashed_eq o s t h]; exact ih

theorem processCandidate_processed_mono (o : Oracles) (s : LoopState) (t : Token) :
    s.processed ⊆ (processCandidate o s t).processed := by
  unfold processCandidate
  split
  · exact Finset.subset_insert _ _
  · split
    · exact Finset.Subset.refl _
    · split
      · exact Finset.subset_insert _ _
      · exact Finset.Subset.refl _

theorem stepCandidate_processed_mono (o : Oracles) (s : LoopState) (t : Token) :
    s.processed ⊆ (stepCandidate o s t).processed := by
  unfold stepCandidate
  split
  · exact Finset.Subset.refl _
  · exact processCandidate_processed_mono o s t

theorem foldl_processed_mono (o : Oracles) (ts : List Token) :
    ∀ s : LoopState, s.processed ⊆ (ts.foldl (stepCandidate o) s).processed := by
  induction ts with
  | nil => intro s; exact Finset.Subset.refl _
  | cons t ts ih =>
      intro s
      exact Finset.Subset.trans (stepCandidate_processed_mono o s t) (ih _)

theorem processCandidate_publishes_mono (o : Oracles) (s : LoopState) (t : Token)
    {m : String} (h : m ∈ s.publishes) : m ∈ (processCandidate o s t).publishes := by
  unfold processCandidate
  split
  · exact h
  · split
    · exact h
    · split
      · exact List.mem_append_left _ h
      · exact List.mem_append_left _ h

theorem stepCandidate_publishes_mono (o : Oracles) (s : LoopState) (t : Token)
    {m : String} (h : m ∈ s.publishes) : m ∈ (stepCandidate o s t).publishes := by
  unfold stepCandidate
  split
  · exact h
  · exact processCandidate_publishes_mono o s t h

theorem foldl_publishes_mono (o : Oracles) (ts : List Token) :
    ∀ (s : LoopState) {m : String}, m ∈ s.publishes →
      m ∈ (ts.foldl (stepCandidate o) s).publishes := by
  induction ts with
  | nil => intro s m h; exact h
  | cons t ts ih =>
      intro s m h
      exact ih _ (stepCandidate_publishes_mono o s t h)

theorem stepCandidate_not_added (o : Oracles) {m : String} (s : LoopState) (t : Token)
    (hacc : acceptsFor o m = true) (hpub : o.publish m = false)
    (hm : m ∉ s.processed) : m ∉ (stepCandidate o s t).processed := by
  unfold stepCandidate
  split
  · exact hm
  · unfold processCandidate
    split
    · rename_i heq
      simp only [Finset.mem_insert, not_or]
      refine ⟨?_, hm⟩
      intro hEq
      rw [hEq] at hacc
      unfold acceptsFor at hacc
      rw [heq] at hacc
      exact Bool.false_ne_true hacc
    · split
      · exact hm
      · split
        · rename_i hpubT
          simp only [Finset.mem_insert, not_or]
          refine ⟨?_, hm⟩
          intro hEq
          rw [hEq] at hpub
          exact Bool.false_ne_true (hpub.symm.trans hpubT)
        · exact hm

theorem foldl_not_added (o : Oracles) {m : String}
    (hacc : acceptsFor o m = true) (hpub : o.publish m = false) :
    ∀ (ts : List Token) (s : LoopState), m ∉ s.processed →
      m ∉ (ts.foldl (stepCandidate o) s).processed := by
  intro ts
  induction ts with
  | nil => intro s hm; exact hm
  | cons t ts ih =>
      intro s hm
      exact ih _ (stepCandidate_not_added o s t hacc hpub hm)

/-- Processing one token either marks its mint processed, or crashes, or
records a failed publish attempt for that mint. -/
theorem processCandidate_progress (o : Oracles) (s : LoopState) (t : Token) :
    t.mint.getD "" ∈ (processCandidate o s t).processed ∨
    (processCandidate o s t).crashed = true ∨
    (t.mint.getD "" ∈ (processCandidate o s t).publishes ∧
      o.publish (t.mint.getD "") = false) := by
  unfold processCandidate
  split
  · left; exact Finset.mem_insert_self _ _
  · split
    · right; left; rfl
    · split
      · left; exact Finset.mem_insert_self _ _
      · rename_i hpubF
        right; right
        exact ⟨List.mem_append_right _ (List.mem_singleton_self _), hpubF⟩

/-- A crash-free fold whose publish attempts all succeeded has marked
every folded token's mint as processed. -/
theorem foldl_mints_added (o : Oracles) :
    ∀ (ts : List Token) (s : LoopState),
      (ts.foldl (stepCandidate o) s).crashed = false →
      (∀ m ∈ (ts.foldl (stepCandidate o) s).publishes, o.publish m = true) →
      ∀ t ∈ ts, t.mint.getD "" ∈ (ts.foldl (stepCandidate o) s).processed := by
  intro ts
  induction ts with
  | nil => intro s _ _ t ht; exact absurd ht (List.not_mem_nil t)
  | cons t0 ts ih =>
      intro s hnc hp t ht
      rw [List.foldl_cons] at hnc hp ⊢
      have hs : s.crashed = false := by
        by_contra hcr
        rw [Bool.not_eq_false] at hcr
        rw [stepCandidate_crashed_eq o s t0 hcr, foldl_crashed_eq o ts s hcr] at hnc
        exact Bool.false_ne_true (hnc.symm.trans hcr)
      have hstep : stepCandidate o s t0 = processCandidate o s t0 := by
        unfold stepCandidate; simp [hs]
      rw [hstep] at hnc hp ⊢
      have hs' : (processCandidate o s t0).crashed = false := by
        by_contra hcr
        rw [Bool.not_eq_false] at hcr
        rw [foldl_crashed_eq o ts _ hcr] at hnc
        exact Bool.false_ne_true (hnc.symm.trans hcr)
      rcases List.mem_cons.mp ht with rfl | hts
      · rcases processCandidate_progress o s t with hmem | hcr | ⟨hpubm, hpubf⟩
        · exact foldl_processed_mono o ts _ hmem
        · exact absurd hcr (by simp [hs'])
        · have : o.publish (t.mint.getD "") = true :=
            hp _ (foldl_publishes_mono o ts _ hpubm)
          exact absurd (hpubf.symm.trans this) Bool.false_ne_true
      · exact ih _ hnc hp t hts

theorem valid_ne_notfound_prop {s : String} (h : is_valid_url s = true) :
    ¬s = "Not found" := by
  intro hEq
  rw [hEq] at h
  exact absurd h (by decide)

theorem format_token_message_isOk (token : Token) (b : ℚ) (txc : Option Int)
    (tl tw : String) :
    ∃ msg, format_token_message token (some b) txc tl tw = Except.ok msg :=
  ⟨_, rfl⟩

/-- When the balance value reaching the formatter is present, processing a
candidate never flips the crash flag. -/
theorem processCandidate_crashed_of_balance (o : Oracles) (s : LoopState) (t : Token)
    (hbal : (if truthyOpt t.creator then o.balance (t.creator.getD "") else none).isSome
      = true) :
    (processCandidate o s t).crashed = s.crashed := by
  unfold processCandidate
  split
  · rfl
  · obtain ⟨b, hb⟩ := Option.isSome_iff_exists.mp hbal
    rw [hb]
    obtain ⟨msg, hmsg⟩ := format_token_message_isOk t b
      (if truthyOpt t.creator then o.txCount (t.creator.getD "") else none)
      (linksFor o (t.mint.getD "")).1 (linksFor o (t.mint.getD "")).2
    rw [hmsg]
    split
    · rename_i heqq
      exact absurd heqq (by simp)
    · split
      · rfl
      · rfl

/-- C2: the acceptance filter accepts an enrichment result exactly when
both social links are present (a truthy `telegram_url`/`twitter_url`
field) and each passes the URL-syntax validation `is_valid_url` — the
twitter link being validated after its `x.com` → `twitter.com` rewrite,
which is the form the pipeline checks; an absent enrichment, an absent
link, or a syntactically invalid link yields rejection. -/
theorem accepts_iff_links_present_and_valid (e : Option Enrichment) :
    mainFilter (resolveLinks e).1 (resolveLinks e).2 = true ↔
      ∃ m, e = some m ∧
        (∃ tl, truthy m.telegram_url = some tl ∧ is_valid_url tl = true) ∧
        (∃ tw, truthy m.twitter_url = some tw ∧
          is_valid_url (normalizeTwitterLink tw) = true) := by
  cases e with
  | none =>
      constructor
      · intro h
        exact absurd h (by decide)
      · rintro ⟨m, hm, -⟩
        exact absurd hm (by simp)
  | some m =>
      rw [resolveLinks_fst m, resolveLinks_snd m]
      cases h1 : truthy m.telegram_url with
      | none => simp [mainFilter, h1]
      | some tl =>
          cases h2 : truthy m.twitter_url with
          | none =>
              simp [mainFilter, h2,
                show normalizeTwitterLink "Not found" = "Not found" from by decide]
          | some tw =>
              simp only [Option.getD_some]
              simp only [mainFilter, Bool.and_eq_true, bne_iff_ne, ne_eq]
              constructor
              · rintro ⟨⟨⟨-, hv1⟩, -⟩, hv2⟩
                exact ⟨m, rfl, ⟨tl, h1, hv1⟩, ⟨tw, h2, hv2⟩⟩
              · rintro ⟨m', hm', ⟨tl', htl', hv1⟩, ⟨tw', htw', hv2⟩⟩
                have hmm := Option.some.inj hm'
                subst hmm
                rw [h1] at htl'
                have htl'' := Option.some.inj htl'
                subst htl''
                rw [h2] at htw'
                have htw'' := Option.some.inj htw'
                subst htw''
                exact ⟨⟨⟨valid_ne_notfound_prop hv1, hv1⟩,
                  valid_ne_notfound_prop hv2⟩, hv2⟩

/-- C1: (code-bug evidence) with both links valid the candidate passes the
filter, but when the balance lookup fails — leaving the balance absent —
the `.5f` interpolation in `format_token_message` raises `TypeError`, so no
publish call happens and the cycle aborts; by contrast, with only the
activity count absent the message is still formatted and published.  The
claim (and the spec) say absent chain info never blocks publication. -/
theorem absent_balance_blocks_publication :
    acceptsFor noBalOracles "M1" = true ∧
    (runCycle noBalOracles [sampleToken] ∅).crashed = true ∧
    (runCycle noBalOracles [sampleToken] ∅).publishes = [] ∧
    "M1" ∉ (runCycle noBalOracles [sampleToken] ∅).processed ∧
    (runCycle noTxOracles [sampleToken] ∅).crashed = false ∧
    (runCycle noTxOracles [sampleToken] ∅).publishes = ["M1"] := by
  decide

/-- C5: on a network timeout, a transport error, or a response body that is
not valid JSON, the feed fetcher returns the empty list — no exception
reaches the caller on those outcomes. -/
theorem fetch_failures_yield_empty :
    fetch_new_pump_fun_tokens .timeout = .ok [] ∧
    fetch_new_pump_fun_tokens .transportError = .ok [] ∧
    fetch_new_pump_fun_tokens (.success .notJson) = .ok [] :=
  ⟨rfl, rfl, rfl⟩

/-- C3: a candidate accepted by the filter whose publish attempt fails
(publisher returns false for its mint) is not added to the dedup set by the
cycle, is offered again as a new candidate when the same feed is processed
next cycle, and the failed-publish path leaves the crash flag untouched, so
the remaining candidates of the current cycle keep being processed. -/
theorem publish_failure_not_marked_and_retried (o : Oracles) (f : List Token)
    (p0 : Finset String) (t : Token) (m c : String) (s : LoopState)
    (ht : t ∈ f) (hm : t.mint = some m) (hmt : truthyOpt t.mint = true)
    (hc : t.creator = some c) (hct : truthyOpt t.creator = true)
    (h0 : m ∉ p0) (hacc : acceptsFor o m = true)
    (hbal : (o.balance c).isSome = true) (hpub : o.publish m = false) :
    m ∉ (runCycle o f p0).processed ∧
    t ∈ newCandidates f (runCycle o f p0).processed ∧
    (processCandidate o s t).crashed = s.crashed := by
  have hgd : t.mint.getD "" = m := by rw [hm]; rfl
  have hnot : m ∉ (runCycle o f p0).processed :=
    foldl_not_added o hacc hpub (newCandidates f p0) ⟨p0, [], [], [], false⟩ h0
  refine ⟨hnot, ?_, ?_⟩
  · unfold newCandidates
    refine List.mem_filter.mpr ⟨List.mem_filter.mpr ⟨ht, ?_⟩, ?_⟩
    · unfold validFilter
      rw [hmt, hct]
      rfl
    · rw [hmt, hgd]
      simp [hnot]
  · apply processCandidate_crashed_of_balance
    have hcd : t.creator.getD "" = c := by rw [hc]; rfl
    simp [hct, hcd, hbal]

/-- C4: a candidate rejected by the filter is immediately marked processed
and nothing else happens — the state is unchanged except for the inserted
mint, so there is no chain-info lookup, no formatting and no publish call —
and its mint being in the dedup set keeps it out of any later cycle's
new-candidate list. -/
theorem rejected_marked_processed_no_effects (o : Oracles) (s : LoopState)
    (t : Token) (m : String) (f : List Token)
    (hm : t.mint = some m) (hrej : acceptsFor o m = false) :
    processCandidate o s t = { s with processed := insert m s.processed } ∧
    m ∈ (processCandidate o s t).processed ∧
    t ∉ newCandidates f (processCandidate o s t).processed := by
  have hgd : t.mint.getD "" = m := by rw [hm]; rfl
  unfold acceptsFor at hrej
  have hpc : processCandidate o s t = { s with processed := insert m s.processed } := by
    unfold processCandidate
    rw [hgd, hrej]
  refine ⟨hpc, ?_, ?_⟩
  · rw [hpc]
    exact Finset.mem_insert_self m s.processed
  · rw [hpc]
    unfold newCandidates
    intro hmem
    have h2 := (List.mem_filter.mp hmem).2
    rw [hgd] at h2
    simp at h2

theorem publish_failure_not_marked_and_retried_witness :
    (sampleToken ∈ [sampleToken] ∧ sampleToken.mint = some "M1" ∧
     truthyOpt sampleToken.mint = true ∧ sampleToken.creator = some "C1" ∧
     truthyOpt sampleToken.creator = true ∧ "M1" ∉ (∅ : Finset String) ∧
     acceptsFor failPubOracles "M1" = true ∧
     (failPubOracles.balance "C1").isSome = true ∧
     failPubOracles.publish "M1" = false) ∧
    ("M1" ∉ (runCycle failPubOracles [sampleToken] ∅).processed ∧
     sampleToken ∈ newCandidates [sampleToken]
        (runCycle failPubOracles [sampleToken] ∅).processed ∧
     (processCandidate failPubOracles initState sampleToken).crashed =
        initState.crashed) :=
  ⟨⟨by decide, rfl, by decide, rfl, by decide, by decide, by decide, rfl, rfl⟩,
   publish_failure_not_marked_and_retried failPubOracles [sampleToken] ∅ sampleToken
     "M1" "C1" initState (by decide) rfl (by decide) rfl (by decide) (by decide)
     (by decide) rfl rfl⟩

theorem rejected_marked_processed_no_effects_witness :
    (sampleToken.mint = some "M1" ∧ acceptsFor rejOracles "M1" = false) ∧
    (processCandidate rejOracles initState sampleToken =
       { initState with processed := insert "M1" initState.processed } ∧
     "M1" ∈ (processCandidate rejOracles initState sampleToken).processed ∧
     sampleToken ∉ newCandidates [sampleToken]
        (processCandidate rejOracles initState sampleToken).processed) :=
  ⟨⟨rfl, by decide⟩,
   rejected_marked_processed_no_effects rejOracles initState sampleToken "M1"
     [sampleToken] rfl (by decide)⟩

/-- C6: every call to the enricher produces the gate trace
acquire-(network)-release or acquire-release; the acquire comes first, one
acquire is paired with one release, the available permit count afterwards
equals the count before, and the unconfigured-endpoint path acquires and
releases without any network event. -/
theorem enricher_gate_balanced (configured : Bool) (o : EnrichOutcome) (n : Int) :
    ((get_token_metadata_enriched configured o).2 = [Ev.acq, Ev.net, Ev.rel] ∨
     (get_token_metadata_enriched configured o).2 = [Ev.acq, Ev.rel]) ∧
    (get_token_metadata_enriched configured o).2.count Ev.acq = 1 ∧
    (get_token_metadata_enriched configured o).2.count Ev.rel = 1 ∧
    applyTrace n (get_token_metadata_enriched configured o).2 = n ∧
    (get_token_metadata_enriched false o).2 = [Ev.acq, Ev.rel] := by
  cases configured <;> cases o <;>
    refine ⟨?_, rfl, rfl, (by omega : n - 1 + 1 = n), rfl⟩ <;>
    first
    | exact Or.inl rfl
    | exact Or.inr rfl

/-- C8: `get_sol_balance` returns the raw lamport amount divided by exactly
ten to the ninth, `get_transaction_count` returns the number of entries of
the recent-signatures response, the posted query fixes `limit` to `100`,
and a response honouring that limit keeps the returned count at or below
one hundred. -/
theorem chain_info_scaled_and_bounded (lamports : Int) (sigs : List String)
    (hresp : sigs.length ≤ signaturesRequest.limit.getD 0) :
    get_sol_balance (.ok (some lamports)) = .ok (some ((lamports : ℚ) / 10 ^ 9)) ∧
    get_transaction_count (.ok (some sigs)) = .ok (some (sigs.length : Int)) ∧
    signaturesRequest.method = "getSignaturesForAddress" ∧
    signaturesRequest.limit = some 100 ∧
    sigs.length ≤ 100 := by
  refine ⟨?_, rfl, rfl, rfl, ?_⟩
  · have h9 : (10 : ℚ) ^ 9 = 1000000000 := by norm_num
    rw [h9]
    rfl
  · simpa [signaturesRequest] using hresp

theorem chain_info_scaled_and_bounded_witness :
    ((["s1", "s2"] : List String).length ≤ signaturesRequest.limit.getD 0) ∧
    (get_sol_balance (.ok (some 3)) = .ok (some ((3 : ℚ) / 10 ^ 9)) ∧
     get_transaction_count (.ok (some ["s1", "s2"])) =
        .ok (some ((["s1", "s2"] : List String).length : Int)) ∧
     signaturesRequest.method = "getSignaturesForAddress" ∧
     signaturesRequest.limit = some 100 ∧
     (["s1", "s2"] : List String).length ≤ 100) :=
  ⟨by decide, chain_info_scaled_and_bounded 3 ["s1", "s2"] (by decide)⟩

/-- C9: (counterexample) a feed item possessing an identifier but no
owning-account reference is discarded by the pipeline's validity filter,
although the claim says a candidate with at least one of the two is kept. -/
theorem discard_rule_cex :
    truthyOpt noCreatorToken.mint = true ∧
    truthyOpt noCreatorToken.creator = false ∧
    validFilter noCreatorToken = false ∧
    noCreatorToken ∉ newCandidates [noCreatorToken] ∅ := by
  decide

/-- C9: (amended) a fetched candidate is kept for dedup processing exactly
when its identifier and its owning-account reference are both present
(truthy); it is discarded when either is missing. -/
theorem kept_iff_both_truthy (f : List Token) (t : Token) :
    t ∈ f.filter validFilter ↔
      t ∈ f ∧ truthyOpt t.mint = true ∧ truthyOpt t.creator = true := by
  rw [List.mem_filter]
  unfold validFilter
  rw [Bool.and_eq_true]

/-- C10: the dedup set is monotone — a whole cycle only ever extends the
set it starts from, and each single candidate-processing step only ever
extends the set of the state it is given. -/
theorem dedup_set_monotone (o : Oracles) (f : List Token) (p0 : Finset String)
    (s : LoopState) (t : Token) :
    p0 ⊆ (runCycle o f p0).processed ∧
    s.processed ⊆ (stepCandidate o s t).processed :=
  ⟨foldl_processed_mono o (newCandidates f p0) ⟨p0, [], [], [], false⟩,
   stepCandidate_processed_mono o s t⟩

/-- C7: (counterexample) with an unchanged feed and a publisher that keeps
failing, the only candidate is not in the dedup set after cycle one, so
cycle two issues a publish call again — the claim's "zero publish calls on
the second cycle" does not hold unconditionally. -/
theorem second_cycle_publish_cex :
    (runCycle failPubOracles [sampleToken]
      (runCycle failPubOracles [sampleToken] ∅).processed).publishes = ["M1"] := by
  decide

/-- C7: (amended) running two consecutive cycles with an unchanged feed
produces zero publish calls on the second cycle, provided the first cycle
does not abort in formatting and every publish attempt it makes succeeds —
every identifier the feed offers is then already in the dedup set.  (A
publish failure or a formatting crash in cycle one leads to a retry, hence
a publish call, in cycle two.) -/
theorem second_cycle_quiet (o : Oracles) (f : List Token) (p0 : Finset String)
    (hp : (runCycle o f p0).publishes.all o.publish = true)
    (hnc : (runCycle o f p0).crashed = false) :
    (runCycle o f (runCycle o f p0).processed).publishes = [] := by
  have hp' : ∀ m ∈ (runCycle o f p0).publishes, o.publish m = true :=
    fun m hm => List.all_eq_true.mp hp m hm
  have hkey : ∀ t ∈ newCandidates f p0,
      t.mint.getD "" ∈ (runCycle o f p0).processed :=
    foldl_mints_added o (newCandidates f p0) ⟨p0, [], [], [], false⟩ hnc hp'
  have hempty : newCandidates f (runCycle o f p0).processed = [] := by
    unfold newCandidates
    rw [List.filter_eq_nil_iff]
    intro t ht
    have hvalid : validFilter t = true := (List.mem_filter.mp ht).2
    have htr : truthyOpt t.mint = true := by
      unfold validFilter at hvalid
      rw [Bool.and_eq_true] at hvalid
      exact hvalid.1
    by_cases h0 : t.mint.getD "" ∈ p0
    · have hmem : t.mint.getD "" ∈ (runCycle o f p0).processed :=
        foldl_processed_mono o (newCandidates f p0) ⟨p0, [], [], [], false⟩ h0
      simp [hmem]
    · have htnew : t ∈ newCandidates f p0 := by
        unfold newCandidates
        refine List.mem_filter.mpr ⟨ht, ?_⟩
        simp [htr, h0]
      have hmem := hkey t htnew
      simp [hmem]
  set p1 := (runCycle o f p0).processed with hP
  unfold runCycle
  rw [hempty]
  rfl

theorem second_cycle_quiet_witness :
    ((runCycle okPubOracles [sampleToken] ∅).publishes.all okPubOracles.publish
        = true ∧
     (runCycle okPubOracles [sampleToken] ∅).crashed = false) ∧
    (runCycle okPubOracles [sampleToken]
        (runCycle okPubOracles [sampleToken] ∅).processed).publishes = [] :=
  ⟨⟨by decide, by decide⟩,
   second_cycle_quiet okPubOracles [sampleToken] ∅ (by decide) (by decide)⟩
